import Mathlib

/-!
Shallow embedding of the Stripe payment-provider synchronization layer of the
Ghost repository, covering:

* `BillingPortalManager` (core/server/services/stripe/billing-portal-manager.js
  and its TypeScript variant): `configure`, `start`, `createOrUpdateConfiguration`,
  `getConfigurationOptions`;
* `StripeService` (stripe service orchestrator): the action sequences performed
  by `connect`, `disconnect` and `configure`;
* `MemberCommentingCodec.parse` together with the `MemberCommenting` value object
  (core/server/services/members/commenting).

JavaScript effects are made explicit: remote API calls and settings-store edits
are returned as traces, promise rejections / thrown exceptions are `Except`
errors, and JavaScript's `null`/`undefined` and truthiness are modelled with
`Option` and explicit truthiness functions.
-/

/-- A JavaScript error value as observed by the reconciler: only its `code`
field is inspected (`err.code === 'resource_missing'`); errors without a `code`
field carry `none`. -/
structure JsError where
  code : Option String
deriving Repr, DecidableEq

/-- JavaScript string interpolation `${x}` of a `string | null` value:
`null` interpolates as the text "null". -/
def jsInterpolate : Option String → String
  | some s => s
  | none => "null"

/-- A feature block `{enabled: boolean}` of the billing-portal options. -/
structure FeatureToggle where
  enabled : Bool
deriving Repr, DecidableEq

/-- The `business_profile` block of the billing-portal options. -/
structure BusinessProfile where
  headline : String
deriving Repr, DecidableEq

/-- The `features` block of the billing-portal options. -/
structure PortalFeatures where
  invoice_history : FeatureToggle
  payment_method_update : FeatureToggle
  subscription_cancel : FeatureToggle
deriving Repr, DecidableEq

/-- The options passed to create/update billing-portal-configuration calls.
`features` and `default_return_url` are absent (`none`) in the update-only
variant; `default_return_url` holds the manager's `siteUrl` (`none` models a
JavaScript `null` siteUrl). -/
structure ConfigurationOptions where
  business_profile : BusinessProfile
  features : Option PortalFeatures
  default_return_url : Option String
deriving Repr, DecidableEq

/-- A billing-portal configuration object as returned by the Stripe API facade:
only its `id` is consumed by this code. -/
structure StripeConfiguration where
  id : String
deriving Repr, DecidableEq

/-- The Remote API Facade (`StripeAPI`), modelled as an oracle: each method
either resolves with a configuration or rejects with a `JsError`. -/
structure StripeApiModel where
  createBillingPortalConfiguration : ConfigurationOptions → Except JsError StripeConfiguration
  updateBillingPortalConfiguration : String → ConfigurationOptions → Except JsError StripeConfiguration

/-- One observable call to the Remote API Facade. -/
inductive ApiCall where
  | create (options : ConfigurationOptions)
  | update (id : String) (options : ConfigurationOptions)
deriving Repr, DecidableEq

/-- One `SettingsModel.edit` write: a `{key, value}` pair. -/
structure SettingEdit where
  key : String
  value : String
deriving Repr, DecidableEq

/-- `const CONFIGURATION_ID_SETTING = 'stripe_billing_portal_configuration_id'`. -/
def CONFIGURATION_ID_SETTING : String := "stripe_billing_portal_configuration_id"

/-- The `BillingPortalManager` object state: its injected API facade and
settings cache, plus the fields written by `configure`. `settingsCache k`
models `settingsCache.get(k)` returning `string | null`. -/
structure BillingPortalManager where
  api : StripeApiModel
  settingsCache : String → Option String
  siteUrl : Option String
  configured : Bool

/-- The argument of `BillingPortalManager.configure`. -/
structure BillingPortalConfig where
  siteUrl : String

/-- `configure(config)`: stores `siteUrl` and sets `configured = true`;
no side effects. -/
def BillingPortalManager.configure (m : BillingPortalManager) (config : BillingPortalConfig) :
    BillingPortalManager :=
  { m with siteUrl := some config.siteUrl, configured := true }

/-- `getConfigurationOptions(updateOnly = false)`: builds the default options
from the current settings-cache title and the configured site URL, then strips
everything but the business profile in the update-only variant. -/
def BillingPortalManager.getConfigurationOptions (m : BillingPortalManager)
    (updateOnly : Bool := false) : ConfigurationOptions :=
  let defaultOptions : ConfigurationOptions :=
    { business_profile :=
        { headline := "Manage your " ++ jsInterpolate (m.settingsCache "title") ++ " subscription" }
      features := some
        { invoice_history := { enabled := true }
          payment_method_update := { enabled := true }
          subscription_cancel := { enabled := true } }
      default_return_url := m.siteUrl }
  if updateOnly then
    { business_profile := defaultOptions.business_profile
      features := none
      default_return_url := none }
  else
    defaultOptions

/-- The create branch of `createOrUpdateConfiguration`: call
`createBillingPortalConfiguration` with the full options and return the new
configuration's id (or propagate the rejection). -/
def BillingPortalManager.createPath (m : BillingPortalManager) :
    Except JsError String × List ApiCall :=
  match m.api.createBillingPortalConfiguration (m.getConfigurationOptions) with
  | Except.ok configuration =>
      (Except.ok configuration.id, [ApiCall.create (m.getConfigurationOptions)])
  | Except.error err =>
      (Except.error err, [ApiCall.create (m.getConfigurationOptions)])

/-- The update branch of `createOrUpdateConfiguration` for a non-empty id `i`:
try `updateBillingPortalConfiguration`; on success return the returned
configuration's id; on a `resource_missing` rejection fall back to the create
branch; propagate any other rejection. -/
def BillingPortalManager.updatePath (m : BillingPortalManager) (i : String) :
    Except JsError String × List ApiCall :=
  let updateCall := ApiCall.update i (m.getConfigurationOptions true)
  match m.api.updateBillingPortalConfiguration i (m.getConfigurationOptions true) with
  | Except.ok configuration => (Except.ok configuration.id, [updateCall])
  | Except.error err =>
      if err.code = some "resource_missing" then
        let fallback := m.createPath
        (fallback.1, updateCall :: fallback.2)
      else
        (Except.error err, [updateCall])

/-- `createOrUpdateConfiguration(id)`: `if (!id)` — a missing (`null`) or
empty-string id is falsy and takes the create branch; any other id takes the
update branch. Returns the resolved/rejected result together with the trace of
facade calls made. -/
def BillingPortalManager.createOrUpdateConfiguration (m : BillingPortalManager) :
    Option String → Except JsError String × List ApiCall
  | none => m.createPath
  | some i => if i = "" then m.createPath else m.updatePath i

/-- `start()`: a no-op unless configured; otherwise read the cached
configuration id, run `createOrUpdateConfiguration`, and when the resulting id
differs (JavaScript `!==`, where a string never equals `null`) from the cached
one, write it to the settings store. Returns the result together with the api
call trace and the settings edits performed. -/
def BillingPortalManager.start (m : BillingPortalManager) :
    Except JsError Unit × List ApiCall × List SettingEdit :=
  if m.configured = false then
    (Except.ok (), [], [])
  else
    let existingId := m.settingsCache CONFIGURATION_ID_SETTING
    match m.createOrUpdateConfiguration existingId with
    | (Except.error err, calls) => (Except.error err, calls, [])
    | (Except.ok configurationId, calls) =>
        if some configurationId ≠ existingId then
          (Except.ok (), calls,
            [{ key := "stripe_billing_portal_configuration_id", value := configurationId }])
        else
          (Except.ok (), calls, [])

/-- JavaScript falsiness of the `string | null` id checked by `if (!id)`. -/
def jsFalsyId : Option String → Bool
  | none => true
  | some s => s = ""

/-- An integration lifecycle domain event dispatched by `StripeService`. -/
inductive StripeLifecycleEvent where
  | liveEnabled (message : String)
  | liveDisabled (message : String)
deriving Repr, DecidableEq

/-- One step performed by a `StripeService` method, in program order. -/
inductive StripeAction where
  | apiConfigure (live : Bool)
  | webhookManagerConfigure
  | webhookManagerStart
  | webhookManagerStop
  | billingPortalConfigure
  | billingPortalStart
  | clearProductPriceLinks
  | deleteStripePrices
  | deleteStripeProducts
  | deleteMemberStripeCustomers
  | clearOfferCoupons
  | dispatchEvent (e : StripeLifecycleEvent)
deriving Repr, DecidableEq

namespace StripeService

/-- `StripeService.connect()`: dispatches `StripeLiveEnabledEvent` and nothing
else. -/
def connectActions : List StripeAction :=
  [StripeAction.dispatchEvent (StripeLifecycleEvent.liveEnabled "Stripe Live Mode Enabled")]

/-- `StripeService.disconnect()`: null out product price links, delete Stripe
prices/products/member-customer rows, clear offer coupon ids, stop the webhook
manager, clear the API credentials (`api.configure(null)`), then dispatch
`StripeLiveDisabledEvent`. -/
def disconnectActions : List StripeAction :=
  [StripeAction.clearProductPriceLinks,
   StripeAction.deleteStripePrices,
   StripeAction.deleteStripeProducts,
   StripeAction.deleteMemberStripeCustomers,
   StripeAction.clearOfferCoupons,
   StripeAction.webhookManagerStop,
   StripeAction.apiConfigure false,
   StripeAction.dispatchEvent (StripeLifecycleEvent.liveDisabled "Stripe Live Mode Disabled")]

/-- `StripeService.configure(config)`: configure the API facade with live
credentials, configure and start the webhook manager, configure and start the
billing portal manager. No event is dispatched here. -/
def configureActions : List StripeAction :=
  [StripeAction.apiConfigure true,
   StripeAction.webhookManagerConfigure,
   StripeAction.webhookManagerStart,
   StripeAction.billingPortalConfigure,
   StripeAction.billingPortalStart]

/-- Is an action the dispatch of `StripeLiveEnabledEvent` (any message)? -/
def isLiveEnabledDispatch : StripeAction → Bool
  | StripeAction.dispatchEvent (StripeLifecycleEvent.liveEnabled _) => true
  | _ => false

end StripeService

/-! ### MemberCommenting and its codec

`MemberCommentingCodec.parse` runs `JSON.parse` on the raw string and walks the
resulting dynamically-typed value, so the embedding carries a JavaScript value
type, truthiness, and property access (which throws a TypeError on `null` /
`undefined` receivers). `JSON.parse` itself and `new Date(...)` parsing are
external engine services, modelled as oracles in `JsEnv`. -/

/-- A dynamically-typed JavaScript value. `JSON.parse` never yields
`jundefined`; property access does. -/
inductive Jsval where
  | jundefined
  | jnull
  | jbool (b : Bool)
  | jnum (n : Int)
  | jstr (s : String)
  | jarr (elems : List Jsval)
  | jobj (fields : List (String × Jsval))
deriving Repr

/-- JavaScript truthiness of a value (numbers are modelled as integers, so the
only falsy number is 0). -/
def jsTruthy : Jsval → Bool
  | Jsval.jundefined => false
  | Jsval.jnull => false
  | Jsval.jbool b => b
  | Jsval.jnum n => n ≠ 0
  | Jsval.jstr s => s ≠ ""
  | Jsval.jarr _ => true
  | Jsval.jobj _ => true

/-- An exception thrown while parsing: a `TypeError` from property access on
`null`/`undefined`, a `SyntaxError` from `JSON.parse`, the literal
`throw undefined` statements, or the `ValidationError` of the
`MemberCommenting` constructor. The codec's bare `catch` swallows all of them
alike. -/
inductive JsException where
  | typeError
  | syntaxError
  | thrownUndefined
  | validationError
deriving Repr, DecidableEq

/-- First-match lookup in a JavaScript object's field list. -/
def lookupField : List (String × Jsval) → String → Option Jsval
  | [], _ => none
  | (k, v) :: rest, key => if k = key then some v else lookupField rest key

/-- JavaScript property access `v[key]`: throws a TypeError when the receiver
is `null`/`undefined`, yields the field (or `undefined`) on objects, and
`undefined` on other primitives and arrays (none of whose properties are the
keys this code reads). -/
def jsGetField : Jsval → String → Except JsException Jsval
  | Jsval.jundefined, _ => Except.error JsException.typeError
  | Jsval.jnull, _ => Except.error JsException.typeError
  | Jsval.jobj fields, key => Except.ok ((lookupField fields key).getD Jsval.jundefined)
  | _, _ => Except.ok Jsval.jundefined

/-- A JavaScript `Date` object: `some ms` for a valid date (epoch
milliseconds), `none` for an Invalid Date (`getTime()` is `NaN`). -/
abbrev JsDate := Option Int

/-- Engine services used by the codec: `JSON.parse` (`none` models a thrown
`SyntaxError`) and `new Date(v)` construction (`none` models an Invalid
Date). -/
structure JsEnv where
  jsonParse : String → Option Jsval
  newDate : Jsval → JsDate

/-- A `MemberCommenting` domain value. `disabledReason` keeps the raw
JavaScript value the caller passed (the TypeScript type says `string`, but
`parse` forwards whatever truthy field the JSON carried); `disabledUntil` is a
`Date | null`. -/
structure MemberCommenting where
  disabled : Bool
  disabledReason : Jsval
  disabledUntil : Option JsDate
  canComment : Bool
deriving Repr

namespace MemberCommenting

/-- The private constructor: throws a `ValidationError` when `disabled` is set
without a truthy reason; otherwise computes `canComment` against the current
time `now` (an Invalid Date compares false). -/
def construct (now : Int) (disabled : Bool) (disabledReason : Jsval)
    (disabledUntil : Option JsDate) : Except JsException MemberCommenting :=
  if disabled && !(jsTruthy disabledReason) then
    Except.error JsException.validationError
  else
    Except.ok
      { disabled := disabled
        disabledReason := disabledReason
        disabledUntil := disabledUntil
        canComment :=
          if disabled then
            match disabledUntil with
            | some (some d) => d ≤ now
            | some none => false
            | none => false
          else true }

/-- `MemberCommenting.enabled()`. -/
def enabledC (now : Int) : Except JsException MemberCommenting :=
  construct now false Jsval.jnull none

/-- `MemberCommenting.disabled(reason, until)`. -/
def disabledC (now : Int) (reason : Jsval) (untilDate : Option JsDate) :
    Except JsException MemberCommenting :=
  construct now true reason untilDate

end MemberCommenting

/-- The enabled `MemberCommenting` value that `MemberCommenting.enabled()`
constructs. -/
def enabledValue : MemberCommenting :=
  { disabled := false
    disabledReason := Jsval.jnull
    disabledUntil := none
    canComment := true }

namespace MemberCommentingCodec

/-- The body of `parse`'s `try` block: `JSON.parse(raw ?? '')`, the
`!data.disabled` early return, the `throw` on a falsy reason, the `new Date`
construction with its Invalid-Date `throw`, and the final
`MemberCommenting.disabled(...)` call. -/
def parseTry (env : JsEnv) (now : Int) (raw : Option String) :
    Except JsException MemberCommenting := do
  let data ←
    match env.jsonParse (raw.getD "") with
    | some v => Except.ok v
    | none => Except.error JsException.syntaxError
  let disabledField ← jsGetField data "disabled"
  if jsTruthy disabledField = false then
    MemberCommenting.enabledC now
  else
    let reasonField ← jsGetField data "disabledReason"
    if jsTruthy reasonField = false then
      Except.error JsException.thrownUndefined
    else
      let untilField ← jsGetField data "disabledUntil"
      let disabledUntil : Option JsDate :=
        if jsTruthy untilField then some (env.newDate untilField) else none
      match disabledUntil with
      | some none => Except.error JsException.thrownUndefined
      | _ => MemberCommenting.disabledC now reasonField disabledUntil

/-- `MemberCommentingCodec.parse(raw)`: the `try` body with the bare `catch`
that falls back to `MemberCommenting.enabled()`. -/
def parse (env : JsEnv) (now : Int) (raw : Option String) :
    Except JsException MemberCommenting :=
  match parseTry env now raw with
  | Except.ok m => Except.ok m
  | Except.error _ => MemberCommenting.enabledC now

end MemberCommentingCodec

example : MemberCommentingCodec.parse
    { jsonParse := fun _ => none, newDate := fun _ => none } 0 none
    = Except.ok enabledValue := by rfl

example : MemberCommentingCodec.parse
    { jsonParse := fun _ =>
        some (Jsval.jobj [("disabled", Jsval.jbool true),
                          ("disabledReason", Jsval.jstr "spam"),
                          ("disabledUntil", Jsval.jstr "2030-01-01")])
      newDate := fun _ => some 1000 } 0 (some "x")
    = Except.ok
        { disabled := true
          disabledReason := Jsval.jstr "spam"
          disabledUntil := some (some 1000)
          canComment := false } := by rfl

example :
    BillingPortalManager.createOrUpdateConfiguration
      { api :=
          { createBillingPortalConfiguration := fun _ => Except.ok { id := "cfg_new" }
            updateBillingPortalConfiguration := fun _ _ => Except.ok { id := "cfg_1" } }
        settingsCache := fun k => if k = "title" then some "Acme" else none
        siteUrl := some "https://acme.example"
        configured := true }
      none
    = (Except.ok "cfg_new",
       [ApiCall.create
         { business_profile := { headline := "Manage your Acme subscription" }
           features := some
             { invoice_history := { enabled := true }
               payment_method_update := { enabled := true }
               subscription_cancel := { enabled := true } }
           default_return_url := some "https://acme.example" }]) := by
  rfl

/-! ### Claim theorems -/

/-- C5: calling `start()` on a `BillingPortalManager` on which `configure(...)`
has not yet been called is a silent no-op: it resolves normally, performs no
Remote API Facade call and no settings-store edit, and its result does not
depend on the settings cache or the api (the theorem holds for every such
manager, whatever cache and api it carries). -/
theorem start_noop_unconfigured (m : BillingPortalManager)
    (h : m.configured = false) :
    m.start = (Except.ok (), [], []) := by
  simp [BillingPortalManager.start, h]

/-- Witness for C5 at a concrete unconfigured manager. -/
theorem start_noop_unconfigured_witness :
    BillingPortalManager.start
      { api :=
          { createBillingPortalConfiguration := fun _ => Except.ok { id := "cfg_new" }
            updateBillingPortalConfiguration := fun _ _ => Except.ok { id := "cfg_1" } }
        settingsCache := fun _ => some "whatever"
        siteUrl := none
        configured := false }
      = (Except.ok (), [], []) :=
  start_noop_unconfigured _ rfl

/-- C9: `createOrUpdateConfiguration` treats an empty-string cached id exactly
like an absent (`null`) id: on `some ""` it behaves identically to `none`, and
its facade-call trace is exactly one create call with the full options — in
particular `updateBillingPortalConfiguration` is never called. -/
theorem createOrUpdate_emptyId_takes_create_path (m : BillingPortalManager) :
    m.createOrUpdateConfiguration (some "") = m.createOrUpdateConfiguration none ∧
    (m.createOrUpdateConfiguration (some "")).2 =
      [ApiCall.create m.getConfigurationOptions] := by
  refine ⟨rfl, ?_⟩
  show m.createPath.2 = _
  unfold BillingPortalManager.createPath
  cases m.api.createBillingPortalConfiguration m.getConfigurationOptions <;> rfl

/-- C6: `getConfigurationOptions` derives the headline freshly from the current
settings-cache title as `Manage your {title} subscription`; the full variant
carries the three feature toggles enabled and `default_return_url` equal to the
configured site URL, while the update-only variant carries the business profile
alone. -/
theorem getConfigurationOptions_variants (m : BillingPortalManager) (t u : String)
    (ht : m.settingsCache "title" = some t) (hu : m.siteUrl = some u) :
    m.getConfigurationOptions false =
      { business_profile := { headline := "Manage your " ++ t ++ " subscription" }
        features := some
          { invoice_history := { enabled := true }
            payment_method_update := { enabled := true }
            subscription_cancel := { enabled := true } }
        default_return_url := some u } ∧
    m.getConfigurationOptions true =
      { business_profile := { headline := "Manage your " ++ t ++ " subscription" }
        features := none
        default_return_url := none } := by
  constructor <;> simp [BillingPortalManager.getConfigurationOptions, jsInterpolate, ht, hu]

/-- Witness for C6: with title `Acme` the headline is
`Manage your Acme subscription`. -/
theorem getConfigurationOptions_variants_witness :
    BillingPortalManager.getConfigurationOptions
      { api :=
          { createBillingPortalConfiguration := fun _ => Except.ok { id := "cfg_new" }
            updateBillingPortalConfiguration := fun _ _ => Except.ok { id := "cfg_1" } }
        settingsCache := fun k => if k = "title" then some "Acme" else none
        siteUrl := some "https://acme.example"
        configured := true }
      false =
      { business_profile := { headline := "Manage your Acme subscription" }
        features := some
          { invoice_history := { enabled := true }
            payment_method_update := { enabled := true }
            subscription_cancel := { enabled := true } }
        default_return_url := some "https://acme.example" } :=
  (getConfigurationOptions_variants _ "Acme" "https://acme.example" rfl rfl).1

/-- A facade whose update call succeeds but returns a configuration carrying a
different id than the one passed in; create returns a fresh id. -/
def mismatchApi : StripeApiModel :=
  { createBillingPortalConfiguration := fun _ => Except.ok { id := "cfg_new" }
    updateBillingPortalConfiguration := fun _ _ => Except.ok { id := "cfg_other" } }

/-- A configured manager wired to `mismatchApi`, with `cfg_1` cached. -/
def mismatchManager : BillingPortalManager :=
  { api := mismatchApi
    settingsCache := fun k =>
      if k = "stripe_billing_portal_configuration_id" then some "cfg_1"
      else if k = "title" then some "Acme" else none
    siteUrl := some "https://acme.example"
    configured := true }

/-- C2 counterexample: with the cached id `cfg_1` present and the update call
succeeding, `createOrUpdateConfiguration` does *not* return the input id
unchanged — it returns the id carried by the configuration the facade returned
(`cfg_other` here), so the claim "returns the input id regardless of what id
the facade's returned configuration carries" is false. -/
theorem createOrUpdate_success_returns_facade_id_not_input :
    (mismatchManager.createOrUpdateConfiguration (some "cfg_1")).1 = Except.ok "cfg_other" ∧
    (mismatchManager.createOrUpdateConfiguration (some "cfg_1")).1 ≠ Except.ok "cfg_1" ∧
    mismatchManager.api.updateBillingPortalConfiguration "cfg_1"
      (mismatchManager.getConfigurationOptions true) = Except.ok { id := "cfg_other" } := by
  refine ⟨rfl, ?_, rfl⟩
  intro h
  simp [BillingPortalManager.createOrUpdateConfiguration, BillingPortalManager.updatePath,
    mismatchManager, mismatchApi] at h

/-- C2 amended: for a present (non-empty) cached id whose update call succeeds,
`createOrUpdateConfiguration` returns the id of the configuration the facade
returned; in particular it returns the input id unchanged whenever the facade
echoes that id back. -/
theorem createOrUpdate_success_returns_facade_id (m : BillingPortalManager)
    (i : String) (cfg : StripeConfiguration) (hi : i ≠ "")
    (hupd : m.api.updateBillingPortalConfiguration i (m.getConfigurationOptions true)
      = Except.ok cfg) :
    (m.createOrUpdateConfiguration (some i)).1 = Except.ok cfg.id ∧
    (cfg.id = i → (m.createOrUpdateConfiguration (some i)).1 = Except.ok i) := by
  have hmain : (m.createOrUpdateConfiguration (some i)).1 = Except.ok cfg.id := by
    simp [BillingPortalManager.createOrUpdateConfiguration, BillingPortalManager.updatePath,
      hi, hupd]
  exact ⟨hmain, fun he => he ▸ hmain⟩

/-- A facade echoing back the updated configuration's id, as Stripe does. -/
def echoApi : StripeApiModel :=
  { createBillingPortalConfiguration := fun _ => Except.ok { id := "cfg_new" }
    updateBillingPortalConfiguration := fun i _ => Except.ok { id := i } }

/-- A configured manager wired to `echoApi`, with `cfg_1` cached. -/
def echoManager : BillingPortalManager :=
  { api := echoApi
    settingsCache := fun k =>
      if k = "stripe_billing_portal_configuration_id" then some "cfg_1"
      else if k = "title" then some "Acme" else none
    siteUrl := some "https://acme.example"
    configured := true }

/-- Witness for the amended C2 at the echoing facade. -/
theorem createOrUpdate_success_returns_facade_id_witness :
    (echoManager.createOrUpdateConfiguration (some "cfg_1")).1 = Except.ok "cfg_1" :=
  (createOrUpdate_success_returns_facade_id echoManager "cfg_1" { id := "cfg_1" }
    (by decide) rfl).2 rfl

/-- C3: an update failure whose error code is not `resource_missing` is
propagated unchanged by `createOrUpdateConfiguration` (no further facade call
is made), `start()` rejects with that very error, and no settings-store edit is
performed. -/
theorem createOrUpdate_propagates_other_errors (m : BillingPortalManager)
    (i : String) (e : JsError) (hi : i ≠ "")
    (hcache : m.settingsCache CONFIGURATION_ID_SETTING = some i)
    (hupd : m.api.updateBillingPortalConfiguration i (m.getConfigurationOptions true)
      = Except.error e)
    (hcode : e.code ≠ some "resource_missing") :
    m.createOrUpdateConfiguration (some i)
      = (Except.error e, [ApiCall.update i (m.getConfigurationOptions true)]) ∧
    (m.configured = true →
      m.start = (Except.error e, [ApiCall.update i (m.getConfigurationOptions true)], [])) := by
  have hmain : m.createOrUpdateConfiguration (some i)
      = (Except.error e, [ApiCall.update i (m.getConfigurationOptions true)]) := by
    simp [BillingPortalManager.createOrUpdateConfiguration, BillingPortalManager.updatePath,
      hi, hupd, hcode]
  refine ⟨hmain, fun hconf => ?_⟩
  simp [BillingPortalManager.start, hconf, hcache, hmain]

/-- A facade whose update call always rejects with a rate-limit error. -/
def rateLimitApi : StripeApiModel :=
  { createBillingPortalConfiguration := fun _ => Except.ok { id := "cfg_new" }
    updateBillingPortalConfiguration := fun _ _ => Except.error { code := some "rate_limit" } }

/-- A configured manager wired to `rateLimitApi`, with `cfg_1` cached. -/
def rateLimitManager : BillingPortalManager :=
  { api := rateLimitApi
    settingsCache := fun k =>
      if k = "stripe_billing_portal_configuration_id" then some "cfg_1"
      else if k = "title" then some "Acme" else none
    siteUrl := some "https://acme.example"
    configured := true }

/-- Witness for C3 at a concrete non-`resource_missing` rejection. -/
theorem createOrUpdate_propagates_other_errors_witness :
    rateLimitManager.start
      = (Except.error { code := some "rate_limit" },
         [ApiCall.update "cfg_1" (rateLimitManager.getConfigurationOptions true)], []) :=
  (createOrUpdate_propagates_other_errors rateLimitManager "cfg_1"
    { code := some "rate_limit" } (by decide) rfl rfl (by decide)).2 rfl

/-- C4: when `createOrUpdateConfiguration` resolves with an id, `start()`
performs a settings-store write of key
`stripe_billing_portal_configuration_id` precisely when that id differs from
the previously cached one, and performs no write otherwise. -/
theorem start_writes_iff_id_changed (m : BillingPortalManager) (cid : String)
    (hconf : m.configured = true)
    (hok : (m.createOrUpdateConfiguration (m.settingsCache CONFIGURATION_ID_SETTING)).1
      = Except.ok cid) :
    m.start.2.2 =
      (if m.settingsCache CONFIGURATION_ID_SETTING = some cid then []
       else [{ key := "stripe_billing_portal_configuration_id", value := cid }]) ∧
    (m.start.2.2 ≠ [] ↔ m.settingsCache CONFIGURATION_ID_SETTING ≠ some cid) := by
  rcases hp : m.createOrUpdateConfiguration (m.settingsCache CONFIGURATION_ID_SETTING)
    with ⟨r, calls⟩
  rw [hp] at hok
  have hr : r = Except.ok cid := hok
  subst hr
  by_cases hc : m.settingsCache CONFIGURATION_ID_SETTING = some cid
  · rw [hc] at hp
    constructor
    · simp [BillingPortalManager.start, hconf, hc, hp]
    · simp [BillingPortalManager.start, hconf, hc, hp]
  · have hne : some cid ≠ m.settingsCache CONFIGURATION_ID_SETTING := fun h => hc h.symm
    constructor
    · simp [BillingPortalManager.start, hconf, hp, hc, hne]
    · simp [BillingPortalManager.start, hconf, hp, hc, hne]

/-- Witness for C4: with a valid cached id `cfg_1` and a facade echoing the
same id back from update, `start()` performs no settings-store write. -/
theorem start_writes_iff_id_changed_witness :
    echoManager.start.2.2 = [] := by
  rw [(start_writes_iff_id_changed echoManager "cfg_1" rfl rfl).1]
  decide

/-- C1: assuming the facade's create call succeeds with configuration `cfgC`,
`createOrUpdateConfiguration(id)` makes a create call with the full options and
resolves with the newly created configuration's id exactly when the cached id
is absent (JavaScript-falsy: `null` or the empty string) or when the update
call rejects with code `resource_missing`; moreover, in the resource-missing
case `start()` resolves normally — the error is never surfaced to its
caller. -/
theorem createOrUpdate_create_iff_absent_or_missing (m : BillingPortalManager)
    (id : Option String) (cfgC : StripeConfiguration)
    (hcreate : m.api.createBillingPortalConfiguration m.getConfigurationOptions
      = Except.ok cfgC) :
    ((ApiCall.create m.getConfigurationOptions ∈ (m.createOrUpdateConfiguration id).2 ∧
      (m.createOrUpdateConfiguration id).1 = Except.ok cfgC.id)
      ↔ (jsFalsyId id = true ∨
          ∃ i e, id = some i ∧ i ≠ "" ∧
            m.api.updateBillingPortalConfiguration i (m.getConfigurationOptions true)
              = Except.error e ∧
            e.code = some "resource_missing")) ∧
    (∀ i e, m.configured = true →
      m.settingsCache CONFIGURATION_ID_SETTING = some i → i ≠ "" →
      m.api.updateBillingPortalConfiguration i (m.getConfigurationOptions true)
        = Except.error e →
      e.code = some "resource_missing" →
      m.start.1 = Except.ok ()) := by
  constructor
  · cases id with
    | none =>
        apply iff_of_true
        · constructor
          · simp [BillingPortalManager.createOrUpdateConfiguration,
              BillingPortalManager.createPath, hcreate]
          · simp [BillingPortalManager.createOrUpdateConfiguration,
              BillingPortalManager.createPath, hcreate]
        · exact Or.inl rfl
    | some i =>
        by_cases hi : i = ""
        · subst hi
          apply iff_of_true
          · constructor
            · simp [BillingPortalManager.createOrUpdateConfiguration,
                BillingPortalManager.createPath, hcreate]
            · simp [BillingPortalManager.createOrUpdateConfiguration,
                BillingPortalManager.createPath, hcreate]
          · exact Or.inl rfl
        · cases hu : m.api.updateBillingPortalConfiguration i (m.getConfigurationOptions true) with
          | ok cfg =>
              apply iff_of_false
              · rintro ⟨hmem, -⟩
                simp [BillingPortalManager.createOrUpdateConfiguration,
                  BillingPortalManager.updatePath, hi, hu] at hmem
              · rintro (hfal | ⟨i', e, hii, -, hupd, -⟩)
                · simp [jsFalsyId, hi] at hfal
                · cases hii
                  rw [hu] at hupd
                  exact Except.noConfusion hupd
          | error e =>
              by_cases hcode : e.code = some "resource_missing"
              · apply iff_of_true
                · constructor
                  · simp [BillingPortalManager.createOrUpdateConfiguration,
                      BillingPortalManager.updatePath, BillingPortalManager.createPath,
                      hi, hu, hcode, hcreate]
                  · simp [BillingPortalManager.createOrUpdateConfiguration,
                      BillingPortalManager.updatePath, BillingPortalManager.createPath,
                      hi, hu, hcode, hcreate]
                · exact Or.inr ⟨i, e, rfl, hi, hu, hcode⟩
              · apply iff_of_false
                · rintro ⟨-, hres⟩
                  simp [BillingPortalManager.createOrUpdateConfiguration,
                    BillingPortalManager.updatePath, hi, hu, hcode] at hres
                · rintro (hfal | ⟨i', e', hii, -, hupd, hcode'⟩)
                  · simp [jsFalsyId, hi] at hfal
                  · cases hii
                    rw [hu] at hupd
                    cases hupd
                    exact hcode hcode'
  · intro i e hconf hcache hi hupd hcode
    have hres : m.createOrUpdateConfiguration (some i)
        = (Except.ok cfgC.id,
           [ApiCall.update i (m.getConfigurationOptions true),
            ApiCall.create m.getConfigurationOptions]) := by
      simp [BillingPortalManager.createOrUpdateConfiguration,
        BillingPortalManager.updatePath, BillingPortalManager.createPath,
        hi, hupd, hcode, hcreate]
    simp only [BillingPortalManager.start, hconf, hcache, hres]
    split <;> first | rfl | (split <;> rfl)

/-- A facade whose update call rejects with `resource_missing`. -/
def missingApi : StripeApiModel :=
  { createBillingPortalConfiguration := fun _ => Except.ok { id := "cfg_new" }
    updateBillingPortalConfiguration := fun _ _ => Except.error { code := some "resource_missing" } }

/-- A configured manager wired to `missingApi`, with the stale id `cfg_1`
cached. -/
def missingManager : BillingPortalManager :=
  { api := missingApi
    settingsCache := fun k =>
      if k = "stripe_billing_portal_configuration_id" then some "cfg_1"
      else if k = "title" then some "Acme" else none
    siteUrl := some "https://acme.example"
    configured := true }

/-- Witness for C1: with the stale cached id `cfg_1` rejected as
`resource_missing`, the create call is made, the new id is returned, and
`start()` resolves normally. -/
theorem createOrUpdate_create_iff_absent_or_missing_witness :
    (ApiCall.create missingManager.getConfigurationOptions
        ∈ (missingManager.createOrUpdateConfiguration (some "cfg_1")).2 ∧
      (missingManager.createOrUpdateConfiguration (some "cfg_1")).1 = Except.ok "cfg_new") ∧
    missingManager.start.1 = Except.ok () := by
  constructor
  · exact (createOrUpdate_create_iff_absent_or_missing missingManager (some "cfg_1")
      { id := "cfg_new" } rfl).1.mpr
      (Or.inr ⟨"cfg_1", { code := some "resource_missing" }, rfl, by decide, rfl, rfl⟩)
  · exact (createOrUpdate_create_iff_absent_or_missing missingManager (some "cfg_1")
      { id := "cfg_new" } rfl).2 "cfg_1" { code := some "resource_missing" }
      rfl rfl (by decide) rfl rfl

/-- C7 counterexample: `StripeService.configure` performs no dispatch of
`StripeLiveEnabledEvent` at all — that event is dispatched by `connect()` —
so "configure ... then emits StripeLiveEnabledEvent" is false of the code. -/
theorem configure_does_not_dispatch_liveEnabled :
    StripeService.configureActions.all
      (fun a => !StripeService.isLiveEnabledDispatch a) = true ∧
    StripeAction.dispatchEvent (StripeLifecycleEvent.liveEnabled "Stripe Live Mode Enabled")
      ∉ StripeService.configureActions := by
  constructor
  · rfl
  · decide

/-- C7 amended: `StripeService.configure` initializes the Remote API Facade,
then configures and starts the Webhook Registrar, then configures and starts
the Configuration Reconciler, in that order, and dispatches no
`StripeLiveEnabledEvent`; that event is dispatched by `connect()`. -/
theorem configure_order_and_connect_dispatch :
    StripeAction.apiConfigure true ∈ StripeService.configureActions ∧
    StripeAction.webhookManagerStart ∈ StripeService.configureActions ∧
    StripeAction.billingPortalStart ∈ StripeService.configureActions ∧
    StripeService.configureActions.indexOf (StripeAction.apiConfigure true) <
      StripeService.configureActions.indexOf StripeAction.webhookManagerConfigure ∧
    StripeService.configureActions.indexOf StripeAction.webhookManagerConfigure <
      StripeService.configureActions.indexOf StripeAction.webhookManagerStart ∧
    StripeService.configureActions.indexOf StripeAction.webhookManagerStart <
      StripeService.configureActions.indexOf StripeAction.billingPortalConfigure ∧
    StripeService.configureActions.indexOf StripeAction.billingPortalConfigure <
      StripeService.configureActions.indexOf StripeAction.billingPortalStart ∧
    StripeService.configureActions.all
      (fun a => !StripeService.isLiveEnabledDispatch a) = true ∧
    StripeService.connectActions
      = [StripeAction.dispatchEvent (StripeLifecycleEvent.liveEnabled "Stripe Live Mode Enabled")] := by
  refine ⟨?_, ?_, ?_, ?_, ?_, ?_, ?_, rfl, rfl⟩ <;> decide

/-- C8 counterexample: in `StripeService.disconnect` the local price/product/
customer linkage is wiped *before* the webhook registrar is stopped, so the
claim's ordering (stop before wipe) is false of the code. -/
theorem disconnect_stop_is_after_wipe :
    StripeAction.webhookManagerStop ∈ StripeService.disconnectActions ∧
    StripeAction.clearProductPriceLinks ∈ StripeService.disconnectActions ∧
    StripeAction.deleteMemberStripeCustomers ∈ StripeService.disconnectActions ∧
    StripeService.disconnectActions.indexOf StripeAction.clearProductPriceLinks <
      StripeService.disconnectActions.indexOf StripeAction.webhookManagerStop ∧
    StripeService.disconnectActions.indexOf StripeAction.deleteMemberStripeCustomers <
      StripeService.disconnectActions.indexOf StripeAction.webhookManagerStop := by
  refine ⟨?_, ?_, ?_, ?_, ?_⟩ <;> decide

/-- C8 amended: `disconnect()` wipes the local price/product/customer linkage
first, then stops the webhook registrar, then clears the facade credentials,
and dispatches `StripeLiveDisabledEvent` only as its very last step, after all
teardown actions completed. -/
theorem disconnect_teardown_order :
    StripeService.disconnectActions.indexOf StripeAction.clearProductPriceLinks <
      StripeService.disconnectActions.indexOf StripeAction.webhookManagerStop ∧
    StripeService.disconnectActions.indexOf StripeAction.deleteStripePrices <
      StripeService.disconnectActions.indexOf StripeAction.webhookManagerStop ∧
    StripeService.disconnectActions.indexOf StripeAction.deleteStripeProducts <
      StripeService.disconnectActions.indexOf StripeAction.webhookManagerStop ∧
    StripeService.disconnectActions.indexOf StripeAction.deleteMemberStripeCustomers <
      StripeService.disconnectActions.indexOf StripeAction.webhookManagerStop ∧
    StripeService.disconnectActions.indexOf StripeAction.clearOfferCoupons <
      StripeService.disconnectActions.indexOf StripeAction.webhookManagerStop ∧
    StripeService.disconnectActions.indexOf StripeAction.webhookManagerStop <
      StripeService.disconnectActions.indexOf (StripeAction.apiConfigure false) ∧
    StripeService.disconnectActions.getLast?
      = some (StripeAction.dispatchEvent
          (StripeLifecycleEvent.liveDisabled "Stripe Live Mode Disabled")) ∧
    StripeService.disconnectActions.dropLast.all
      (fun a => match a with
        | StripeAction.dispatchEvent _ => false
        | _ => true) = true := by
  refine ⟨?_, ?_, ?_, ?_, ?_, ?_, rfl, rfl⟩ <;> decide

/-- C10: `MemberCommentingCodec.parse` is total and fails open: for every
engine environment, current time and input (any string or `null`) it resolves
with some `MemberCommenting` value — no exception escapes — and an input that
is not valid JSON, or that is marked disabled with a falsy `disabledReason`, or
whose truthy `disabledUntil` parses to an Invalid Date, yields the enabled
state. -/
theorem parse_total_fails_open (env : JsEnv) (now : Int) (raw : Option String) :
    (∃ mc, MemberCommentingCodec.parse env now raw = Except.ok mc) ∧
    (env.jsonParse (raw.getD "") = none →
      MemberCommentingCodec.parse env now raw = Except.ok enabledValue) ∧
    (∀ data dv rv, env.jsonParse (raw.getD "") = some data →
      jsGetField data "disabled" = Except.ok dv → jsTruthy dv = true →
      jsGetField data "disabledReason" = Except.ok rv → jsTruthy rv = false →
      MemberCommentingCodec.parse env now raw = Except.ok enabledValue) ∧
    (∀ data dv rv uv, env.jsonParse (raw.getD "") = some data →
      jsGetField data "disabled" = Except.ok dv → jsTruthy dv = true →
      jsGetField data "disabledReason" = Except.ok rv → jsTruthy rv = true →
      jsGetField data "disabledUntil" = Except.ok uv → jsTruthy uv = true →
      env.newDate uv = none →
      MemberCommentingCodec.parse env now raw = Except.ok enabledValue) := by
  have henabled : MemberCommenting.enabledC now = Except.ok enabledValue := rfl
  have hfb : ∀ e : JsException,
      MemberCommentingCodec.parseTry env now raw = Except.error e →
      MemberCommentingCodec.parse env now raw = Except.ok enabledValue := by
    intro e he
    simp [MemberCommentingCodec.parse, he, henabled]
  refine ⟨?_, ?_, ?_, ?_⟩
  · cases h : MemberCommentingCodec.parseTry env now raw with
    | ok mc => exact ⟨mc, by simp [MemberCommentingCodec.parse, h]⟩
    | error e => exact ⟨enabledValue, hfb e h⟩
  · intro hjson
    apply hfb JsException.syntaxError
    simp [MemberCommentingCodec.parseTry, bind, Except.bind, hjson]
  · intro data dv rv hjson hget1 hdv hget2 hrv
    apply hfb JsException.thrownUndefined
    simp [MemberCommentingCodec.parseTry, bind, Except.bind, hjson, hget1, hdv, hget2, hrv]
  · intro data dv rv uv hjson hget1 hdv hget2 hrv hget3 huv hdate
    apply hfb JsException.thrownUndefined
    simp [MemberCommentingCodec.parseTry, bind, Except.bind, hjson, hget1, hdv, hget2, hrv, hget3, huv, hdate]

/-- A concrete engine environment: the empty string is invalid JSON, two fixed
inputs parse to disabled-marked objects (one without a reason, one whose date
cannot be parsed), and every date is Invalid. -/
def strictEnv : JsEnv :=
  { jsonParse := fun s =>
      if s = "noReason" then
        some (Jsval.jobj [("disabled", Jsval.jbool true)])
      else if s = "badDate" then
        some (Jsval.jobj [("disabled", Jsval.jbool true),
                          ("disabledReason", Jsval.jstr "spam"),
                          ("disabledUntil", Jsval.jstr "not-a-date")])
      else none
    newDate := fun _ => none }

/-- Witness for C10 at `strictEnv`: a `null` input (its `JSON.parse('')`
throws), a disabled object without a reason, and a disabled object with an
unparsable date all yield the enabled state. -/
theorem parse_total_fails_open_witness :
    MemberCommentingCodec.parse strictEnv 0 none = Except.ok enabledValue ∧
    MemberCommentingCodec.parse strictEnv 0 (some "noReason") = Except.ok enabledValue ∧
    MemberCommentingCodec.parse strictEnv 0 (some "badDate") = Except.ok enabledValue := by
  refine ⟨?_, ?_, ?_⟩
  · exact (parse_total_fails_open strictEnv 0 none).2.1 rfl
  · exact (parse_total_fails_open strictEnv 0 (some "noReason")).2.2.1
      (Jsval.jobj [("disabled", Jsval.jbool true)]) (Jsval.jbool true) Jsval.jundefined
      rfl rfl rfl rfl rfl
  · exact (parse_total_fails_open strictEnv 0 (some "badDate")).2.2.2
      (Jsval.jobj [("disabled", Jsval.jbool true),
                   ("disabledReason", Jsval.jstr "spam"),
                   ("disabledUntil", Jsval.jstr "not-a-date")])
      (Jsval.jbool true) (Jsval.jstr "spam") (Jsval.jstr "not-a-date")
      rfl rfl rfl rfl rfl rfl rfl rfl
